import Mathlib

/-!
Verification of the forecasting subsystem of the Air-Quality dashboard.

The embedding follows the source closely:
  * `fetch_pollution_history` models data_service.py, lines 34-64; the HTTP
    transport is replaced by an explicit list of already parsed records and
    the API key by an explicit string parameter.
  * `prepare` models forecasting.py, lines 35-36: filtering the history to one
    pollutant, hourly resampling with mean aggregation, and forward fill.
    Timestamps are seconds since the epoch (`Nat`), hourly buckets are
    `t / 3600`, concentration values are rationals, and a missing hourly
    value (a pandas NaN) is `Option.none`.
  * `render_forecast` models forecasting.py, lines 29-93.  The external
    statistical library (SARIMAX construction plus `fit`) is a parameter
    `fit` returning `Except`: the source wraps both calls in one
    try/except, so a raised exception is `Except.error` with its message.
  * `buildForecast` models forecasting.py, lines 55-59 together with the
    model library boundary: `get_forecast(steps).predicted_mean` and
    `conf_int()` are modelled from the spec as one point estimate and one
    symmetric two-sided confidence interval per step.
-/

namespace AirQuality

/-- One parsed record of the remote history endpoint (data_service.py,
line 60): a timestamp in seconds, a pollutant code and a concentration. -/
structure Observation where
  datetime : Nat
  pollutant : String
  value : ℚ
deriving DecidableEq, Repr

/-- Hourly bucket of a timestamp, as used by resample with a one hour rule. -/
def bucket (t : Nat) : Nat := t / 3600

/-- Models forecasting.py line 35: keep the rows of the requested pollutant,
as timestamp/value pairs in their original order. -/
def filterPollutant (df : List Observation) (pol : String) : List (Nat × ℚ) :=
  (df.filter (fun o => o.pollutant == pol)).map (fun o => (o.datetime, o.value))

/-- The hourly buckets of a list of observations. -/
def bucketList (obs : List (Nat × ℚ)) : List Nat := obs.map (fun o => bucket o.1)

/-- Least element of a list of buckets (0 on the empty list, unused there). -/
def minBucket : List Nat → Nat
  | [] => 0
  | [b] => b
  | b :: bs => min b (minBucket bs)

/-- Greatest element of a list of buckets (0 on the empty list, unused there). -/
def maxBucket : List Nat → Nat
  | [] => 0
  | [b] => b
  | b :: bs => max b (maxBucket bs)

/-- All values whose timestamp falls in hourly bucket `b`. -/
def bucketValues (obs : List (Nat × ℚ)) (b : Nat) : List ℚ :=
  (obs.filter (fun o => bucket o.1 == b)).map Prod.snd

/-- Arithmetic mean of a list of rationals. -/
def meanQ (l : List ℚ) : ℚ := l.sum / (l.length : ℚ)

/-- Models the resample step of forecasting.py line 36: one row per hourly
bucket from the first to the last observed bucket; a bucket with readings
carries their mean, a bucket without readings carries none (a NaN). -/
def resampleMean (obs : List (Nat × ℚ)) : List (Nat × Option ℚ) :=
  if obs.isEmpty then []
  else
    (List.range (maxBucket (bucketList obs) - minBucket (bucketList obs) + 1)).map
      (fun i =>
        (minBucket (bucketList obs) + i,
         if (bucketValues obs (minBucket (bucketList obs) + i)).isEmpty then none
         else some (meanQ (bucketValues obs (minBucket (bucketList obs) + i)))))

/-- Forward fill: replace a missing value by the most recent earlier value,
threading the carried value through the list. -/
def ffillGo : Option ℚ → List (Nat × Option ℚ) → List (Nat × Option ℚ)
  | _, [] => []
  | _, (t, some x) :: rest => (t, some x) :: ffillGo (some x) rest
  | prev, (t, none) :: rest => (t, prev) :: ffillGo prev rest

/-- Models the ffill step of forecasting.py line 36: no value is carried in
front of the first row, so a leading missing value stays missing. -/
def ffill (l : List (Nat × Option ℚ)) : List (Nat × Option ℚ) := ffillGo none l

/-- The series preparation of forecasting.py lines 35-36: filter, hourly
mean resample, forward fill. -/
def prepare (df : List Observation) (pol : String) : List (Nat × Option ℚ) :=
  ffill (resampleMean (filterPollutant df pol))

/-- config.py line 33. -/
def FORECAST_HOURS : Nat := 24

/-- config.py line 34. -/
def MODEL_HISTORY_HOURS : Nat := 168

/-- config.py line 19. -/
def POLLUTANTS : List String := ["co", "no", "no2", "o3", "so2", "pm2_5", "pm10"]

/-- config.py lines 21-23. -/
def HAZARD_THRESHOLDS : List (String × ℚ) :=
  [("co", 10000), ("no", 200), ("no2", 200), ("o3", 100),
   ("so2", 20), ("pm2_5", 25), ("pm10", 50)]

/-- Modelled from the spec: the fitted results object of the external model
library, visible to this code only through its forecasts — a point estimate
and a standard error per future step. -/
structure SarimaxResults where
  meanAt : Nat → ℚ
  seAt : Nat → ℚ

/-- Modelled from the spec: the half width multiplier of the default
two-sided 95 percent confidence interval of the model library. -/
def confZ : ℚ := 196 / 100

/-- The forecast object of forecasting.py lines 55-59 and 74-78: the index
is built by date_range from one hour after the last series timestamp
(in hourly steps, here bucket numbers), and mean, lower and upper are the
per-step outputs of the model library over the requested horizon. -/
structure Forecast where
  index : List Nat
  mean : List ℚ
  lower : List ℚ
  upper : List ℚ
deriving DecidableEq, Repr

/-- Builds the forecast of forecasting.py lines 55-59 from the fitted
results and the last timestamp (hourly bucket) of the prepared series. -/
def buildForecast (res : SarimaxResults) (last : Nat) : Forecast :=
  ⟨(List.range FORECAST_HOURS).map (fun i => last + 1 + i),
   (List.range FORECAST_HOURS).map (fun i => res.meanAt i),
   (List.range FORECAST_HOURS).map (fun i => res.meanAt i - confZ * res.seAt i),
   (List.range FORECAST_HOURS).map (fun i => res.meanAt i + confZ * res.seAt i)⟩

/-- Outcome of the hazard block of forecasting.py lines 84-93: the info
banner (no threshold defined), the success banner (no exceedance), or the
error banner carrying the exceedance timestamps. -/
inductive HazardStatus where
  | undefined
  | ok
  | violated (times : List Nat)
deriving DecidableEq, Repr

/-- Models forecasting.py lines 84-93.  The source tests the looked-up
threshold with a plain truthiness test, so a missing entry and a zero
entry take the same info branch; otherwise the rows with value strictly
above the threshold are reported, in row order. -/
def hazardReport (ths : List (String × ℚ)) (pol : String)
    (rows : List (Nat × ℚ)) : HazardStatus :=
  match List.lookup pol ths with
  | none => .undefined
  | some th =>
    if th = 0 then .undefined
    else
      if ((rows.filter (fun r => decide (th < r.2))).map Prod.fst).isEmpty then .ok
      else .violated ((rows.filter (fun r => decide (th < r.2))).map Prod.fst)

/-- Outcome of one run of render_forecast: the early insufficient-data
return (line 31), the model fitting error return (line 51), an uncaught
exception (indexing an empty series at line 56, unreachable with the real
library), or the rendered forecast with its hazard banner. -/
inductive ForecastOutcome where
  | insufficientData
  | fitError (msg : String)
  | crash
  | success (fc : Forecast) (hazard : HazardStatus)
deriving DecidableEq, Repr

/-- Models data_service.py lines 34-64: with no API key the function shows
an error banner and returns an empty frame; otherwise the parsed records,
sorted by timestamp. -/
def fetch_pollution_history (apiKey : String) (remote : List Observation) :
    List Observation :=
  if apiKey = "" then []
  else remote.mergeSort (fun a b => Nat.ble a.datetime b.datetime)

/-- Models forecasting.py lines 29-93.  The facility and pollutant choices
and the fetched history arrive as parameters; `fit` is the external model
library boundary (SARIMAX construction plus fit, one try/except in the
source). -/
def render_forecast (fit : List (Nat × Option ℚ) → Except String SarimaxResults)
    (df : List Observation) (pol : String) : ForecastOutcome :=
  if df.isEmpty then .insufficientData
  else
    match fit (prepare df pol) with
    | .error e => .fitError e
    | .ok res =>
      match (prepare df pol).getLast? with
      | none => .crash
      | some pt =>
        .success (buildForecast res pt.1)
          (hazardReport HAZARD_THRESHOLDS pol
            ((buildForecast res pt.1).index.zip (buildForecast res pt.1).mean))

/-! ## Supporting lemmas -/

lemma shipped_threshold_pos {pol : String} {th : ℚ}
    (h : List.lookup pol HAZARD_THRESHOLDS = some th) : 0 < th := by
  simp only [HAZARD_THRESHOLDS, List.lookup] at h
  repeat' split at h
  all_goals first
    | (cases h; norm_num)
    | exact absurd h (by simp)

lemma prepare_of_filtered_empty {df : List Observation} {pol : String}
    (h : filterPollutant df pol = []) : prepare df pol = [] := by
  simp [prepare, resampleMean, h, ffill, ffillGo]

lemma hazardReport_undefined_iff (ths : List (String × ℚ)) (pol : String)
    (rows : List (Nat × ℚ)) :
    hazardReport ths pol rows = .undefined ↔
      (List.lookup pol ths = none ∨ List.lookup pol ths = some 0) := by
  unfold hazardReport
  rcases hlk : List.lookup pol ths with _ | th
  · simp
  · by_cases h0 : th = 0
    · subst h0; simp
    · simp only [if_neg h0]
      constructor
      · intro h
        split at h <;> exact absurd h (by simp)
      · rintro (h | h)
        · exact absurd h (by simp)
        · exact absurd (by injection h) h0

lemma isEmpty_false_of_ne_nil {α : Type} {l : List α} (h : l ≠ []) :
    l.isEmpty = false := by
  cases l
  · exact absurd rfl h
  · rfl

lemma minBucket_mem : ∀ (l : List Nat), l ≠ [] → minBucket l ∈ l
  | [], h => absurd rfl h
  | [b], _ => by simp [minBucket]
  | b :: c :: bs, _ => by
    have ih := minBucket_mem (c :: bs) (by simp)
    show min b (minBucket (c :: bs)) ∈ b :: c :: bs
    rcases le_total b (minBucket (c :: bs)) with hb | hb
    · rw [min_eq_left hb]; exact List.mem_cons_self _ _
    · rw [min_eq_right hb]; exact List.mem_cons_of_mem _ ih

lemma minBucket_le : ∀ (l : List Nat), ∀ x ∈ l, minBucket l ≤ x
  | [], x, hx => absurd hx (List.not_mem_nil x)
  | [b], x, hx => by
    rcases List.mem_singleton.mp hx with rfl
    exact le_refl _
  | b :: c :: bs, x, hx => by
    show min b (minBucket (c :: bs)) ≤ x
    rcases List.mem_cons.mp hx with rfl | hx2
    · exact min_le_left _ _
    · exact le_trans (min_le_right _ _) (minBucket_le (c :: bs) x hx2)

lemma maxBucket_mem : ∀ (l : List Nat), l ≠ [] → maxBucket l ∈ l
  | [], h => absurd rfl h
  | [b], _ => by simp [maxBucket]
  | b :: c :: bs, _ => by
    have ih := maxBucket_mem (c :: bs) (by simp)
    show max b (maxBucket (c :: bs)) ∈ b :: c :: bs
    rcases le_total b (maxBucket (c :: bs)) with hb | hb
    · rw [max_eq_right hb]; exact List.mem_cons_of_mem _ ih
    · rw [max_eq_left hb]; exact List.mem_cons_self _ _

lemma le_maxBucket : ∀ (l : List Nat), ∀ x ∈ l, x ≤ maxBucket l
  | [], x, hx => absurd hx (List.not_mem_nil x)
  | [b], x, hx => by
    rcases List.mem_singleton.mp hx with rfl
    exact le_refl _
  | b :: c :: bs, x, hx => by
    show x ≤ max b (maxBucket (c :: bs))
    rcases List.mem_cons.mp hx with rfl | hx2
    · exact le_max_left _ _
    · exact le_trans (le_maxBucket (c :: bs) x hx2) (le_max_right _ _)

lemma bucketValues_ne_nil {obs : List (Nat × ℚ)} {b : Nat}
    (h : b ∈ bucketList obs) : (bucketValues obs b).isEmpty = false := by
  obtain ⟨o, ho, hb⟩ := List.mem_map.mp h
  have hmem : o ∈ obs.filter (fun o => bucket o.1 == b) :=
    List.mem_filter.mpr ⟨ho, by simp [hb]⟩
  rcases hfe : obs.filter (fun o => bucket o.1 == b) with _ | ⟨p, rest⟩
  · rw [hfe] at hmem
    exact absurd hmem (List.not_mem_nil o)
  · simp [bucketValues, hfe]

lemma resampleMean_length {obs : List (Nat × ℚ)} (h : obs.isEmpty = false) :
    (resampleMean obs).length =
      maxBucket (bucketList obs) - minBucket (bucketList obs) + 1 := by
  simp [resampleMean, h]

lemma resampleMean_get {obs : List (Nat × ℚ)} (h : obs.isEmpty = false)
    {i : Nat}
    (hi : i < maxBucket (bucketList obs) - minBucket (bucketList obs) + 1) :
    (resampleMean obs)[i]? = some (minBucket (bucketList obs) + i,
      if (bucketValues obs (minBucket (bucketList obs) + i)).isEmpty then none
      else some (meanQ (bucketValues obs (minBucket (bucketList obs) + i)))) := by
  simp [resampleMean, h, List.getElem?_map, List.getElem?_range, hi]

lemma ffillGo_length : ∀ (p : Option ℚ) (l : List (Nat × Option ℚ)),
    (ffillGo p l).length = l.length
  | _, [] => rfl
  | _, (t, some x) :: rest => by simp [ffillGo, ffillGo_length (some x) rest]
  | p, (t, none) :: rest => by simp [ffillGo, ffillGo_length p rest]

lemma ffillGo_get_fst : ∀ (p : Option ℚ) (l : List (Nat × Option ℚ)) (i : Nat),
    ((ffillGo p l)[i]?).map Prod.fst = (l[i]?).map Prod.fst
  | _, [], i => by simp [ffillGo]
  | _, (t, some x) :: rest, 0 => by simp [ffillGo]
  | _, (t, some x) :: rest, (i + 1) => by
    simpa [ffillGo] using ffillGo_get_fst (some x) rest i
  | p, (t, none) :: rest, 0 => by simp [ffillGo]
  | p, (t, none) :: rest, (i + 1) => by
    simpa [ffillGo] using ffillGo_get_fst p rest i

lemma ffillGo_get_some : ∀ (p : Option ℚ) (l : List (Nat × Option ℚ))
    (i t : Nat) (x : ℚ), l[i]? = some (t, some x) →
    (ffillGo p l)[i]? = some (t, some x)
  | _, [], i, t, x, h => by simp at h
  | _, (u, some y) :: rest, 0, t, x, h => by
    simp only [List.getElem?_cons_zero] at h
    obtain ⟨h1, h2⟩ : u = t ∧ some y = some x := by simpa using h
    simp [ffillGo, h1, h2]
  | _, (u, some y) :: rest, (i + 1), t, x, h => by
    simp only [List.getElem?_cons_succ] at h
    simpa [ffillGo] using ffillGo_get_some (some y) rest i t x h
  | p, (u, none) :: rest, 0, t, x, h => by
    simp at h
  | p, (u, none) :: rest, (i + 1), t, x, h => by
    simp only [List.getElem?_cons_succ] at h
    simpa [ffillGo] using ffillGo_get_some p rest i t x h

lemma ffillGo_get_none_step : ∀ (p : Option ℚ) (l : List (Nat × Option ℚ))
    (i t : Nat), l[i + 1]? = some (t, none) →
    ((ffillGo p l)[i + 1]?).map Prod.snd = ((ffillGo p l)[i]?).map Prod.snd
  | _, [], i, t, h => by simp at h
  | _, (u, some y) :: rest, 0, t, h => by
    simp only [List.getElem?_cons_succ] at h
    rcases rest with _ | ⟨⟨v, w⟩, rest2⟩
    · simp at h
    · obtain ⟨h1, h2⟩ : v = t ∧ w = none := by simpa using h
      subst h1 h2
      simp [ffillGo]
  | p, (u, none) :: rest, 0, t, h => by
    simp only [List.getElem?_cons_succ] at h
    rcases rest with _ | ⟨⟨v, w⟩, rest2⟩
    · simp at h
    · obtain ⟨h1, h2⟩ : v = t ∧ w = none := by simpa using h
      subst h1 h2
      simp [ffillGo]
  | _, (u, some y) :: rest, (i + 1), t, h => by
    simp only [List.getElem?_cons_succ] at h
    simpa [ffillGo] using ffillGo_get_none_step (some y) rest i t h
  | p, (u, none) :: rest, (i + 1), t, h => by
    simp only [List.getElem?_cons_succ] at h
    simpa [ffillGo] using ffillGo_get_none_step p rest i t h

lemma ffillGo_some_all : ∀ (x : ℚ) (l : List (Nat × Option ℚ)),
    ∀ e ∈ ffillGo (some x) l, e.2.isSome = true
  | _, [], e, he => absurd he (List.not_mem_nil e)
  | x, (t, some y) :: rest, e, he => by
    rcases List.mem_cons.mp he with rfl | h2
    · rfl
    · exact ffillGo_some_all y rest e h2
  | x, (t, none) :: rest, e, he => by
    rcases List.mem_cons.mp he with rfl | h2
    · rfl
    · exact ffillGo_some_all x rest e h2

/-! ## Claims -/

/-- C1 counterexample: a non-empty history holding only carbon monoxide
readings, queried for nitrogen dioxide.  The filtered set is empty, yet the
pipeline does not take the insufficient-data branch: it builds the (empty)
series and hands it to the model library, whose failure surfaces as a model
fitting error. -/
theorem filtered_empty_reaches_fitting_cex :
    filterPollutant [⟨0, "co", 5⟩] "no2" = [] ∧
    render_forecast (fun _ => .error "empty series") [⟨0, "co", 5⟩] "no2" =
      .fitError "empty series" ∧
    render_forecast (fun _ => .error "empty series") [⟨0, "co", 5⟩] "no2" ≠
      .insufficientData := by
  refine ⟨by decide, rfl, by decide⟩

/-- C1 (amended): with an empty filtered observation set, the pipeline
signals the insufficient-data condition exactly when the whole fetched
history is empty; a non-empty history of other pollutants proceeds to model
fitting on the empty prepared series, and the fitting failure is reported
as a model fitting error, never as the insufficient-data condition. -/
theorem filtered_empty_pipeline_behavior
    (fit : List (Nat × Option ℚ) → Except String SarimaxResults)
    (df : List Observation) (pol : String)
    (hfil : filterPollutant df pol = []) :
    (df.isEmpty = true → render_forecast fit df pol = .insufficientData) ∧
    (df.isEmpty = false → ∀ e, fit [] = .error e →
      render_forecast fit df pol = .fitError e) ∧
    (df.isEmpty = false → render_forecast fit df pol ≠ .insufficientData) := by
  have hprep : prepare df pol = [] := prepare_of_filtered_empty hfil
  refine ⟨fun he => by simp [render_forecast, he], fun he e hfit => ?_, fun he => ?_⟩
  · simp [render_forecast, he, hprep, hfit]
  · simp only [render_forecast, he, Bool.false_eq_true, if_false, hprep]
    rcases fit [] with e | res <;> simp

/-- C1 witness. -/
theorem filtered_empty_pipeline_behavior_witness :
    render_forecast (fun _ => .error "E") [⟨0, "co", 5⟩] "no2" = .fitError "E" :=
  (filtered_empty_pipeline_behavior (fun _ => .error "E") [⟨0, "co", 5⟩] "no2"
    (by decide)).2.1 (by decide) "E" rfl

/-- C2: for every pollutant with a configured threshold (all shipped
thresholds are positive), the hazard evaluator reports exceedances exactly
at the rows whose mean strictly exceeds the threshold, keeping row
(timestamp) order: the empty selection yields the success status, a
non-empty one yields the violation status carrying exactly those
timestamps. -/
theorem hazard_exceedances_exact (pol : String) (th : ℚ)
    (rows : List (Nat × ℚ))
    (hlk : List.lookup pol HAZARD_THRESHOLDS = some th) :
    hazardReport HAZARD_THRESHOLDS pol rows =
      if ((rows.filter (fun r => decide (th < r.2))).map Prod.fst).isEmpty
      then .ok
      else .violated ((rows.filter (fun r => decide (th < r.2))).map Prod.fst) := by
  have hth : th ≠ 0 := ne_of_gt (shipped_threshold_pos hlk)
  unfold hazardReport
  rw [hlk]
  simp [hth]

/-- C2 witness: the spec example, threshold 100 (ozone) and means
50, 150, 99, 101 at hours 0..3, reports exactly hours 1 and 3. -/
theorem hazard_exceedances_exact_witness :
    hazardReport HAZARD_THRESHOLDS "o3" [(0, 50), (1, 150), (2, 99), (3, 101)] =
      .violated [1, 3] := by
  rw [hazard_exceedances_exact "o3" 100 [(0, 50), (1, 150), (2, 99), (3, 101)]
    (by decide)]
  decide

/-- C6 counterexample: a pollutant present in the mapping with threshold
zero is reported as undefined, although its forecast value 5 strictly
exceeds the threshold 0 — the truthiness test of the source conflates a
zero threshold with an absent one, against the claim. -/
theorem zero_threshold_undefined_cex :
    List.lookup "x" [("x", (0 : ℚ))] = some 0 ∧
    (0 : ℚ) < 5 ∧
    hazardReport [("x", 0)] "x" [(0, 5)] = .undefined := by
  refine ⟨by decide, by norm_num, rfl⟩

/-- C6 (amended): the evaluator returns the undefined status exactly when
the threshold lookup yields nothing or yields the (falsy) value zero; for
the shipped configuration, whose thresholds are all positive, undefined
therefore coincides exactly with absence from the mapping. -/
theorem undefined_iff_missing_or_zero :
    (∀ (ths : List (String × ℚ)) (pol : String) (rows : List (Nat × ℚ)),
      hazardReport ths pol rows = .undefined ↔
        (List.lookup pol ths = none ∨ List.lookup pol ths = some 0)) ∧
    (∀ (pol : String) (rows : List (Nat × ℚ)),
      hazardReport HAZARD_THRESHOLDS pol rows = .undefined ↔
        List.lookup pol HAZARD_THRESHOLDS = none) := by
  refine ⟨hazardReport_undefined_iff, fun pol rows => ?_⟩
  rw [hazardReport_undefined_iff]
  constructor
  · rintro (h | h)
    · exact h
    · exact absurd (shipped_threshold_pos h) (by norm_num)
  · exact fun h => Or.inl h

/-- C7: whenever model construction or fitting fails, its error is
reported, carrying the underlying message, and the pipeline aborts: the
outcome is the fitting-error outcome, so no forecast and no hazard
evaluation are produced and no retry or fallback happens. -/
theorem fit_error_aborts
    (fit : List (Nat × Option ℚ) → Except String SarimaxResults)
    (df : List Observation) (pol : String) (e : String)
    (hne : df.isEmpty = false)
    (hfit : fit (prepare df pol) = .error e) :
    render_forecast fit df pol = .fitError e := by
  simp [render_forecast, hne, hfit]

/-- C7 witness. -/
theorem fit_error_aborts_witness :
    render_forecast (fun _ => .error "singular matrix") [⟨0, "co", 1⟩] "co" =
      .fitError "singular matrix" :=
  fit_error_aborts (fun _ => .error "singular matrix") [⟨0, "co", 1⟩] "co"
    "singular matrix" (by decide) rfl

/-- C4 counterexample: a prepared series of one single hourly point — far
below the 48 point minimum of the claim — is not rejected before fitting:
the pipeline hands it to the model library (whose failure then surfaces as
a model fitting error), so no fail-fast insufficient-history branch
exists. -/
theorem short_series_reaches_fitting_cex :
    (prepare [⟨0, "co", 5⟩] "co").length = 1 ∧
    1 < 48 ∧
    render_forecast (fun _ => .error "E") [⟨0, "co", 5⟩] "co" = .fitError "E" := by
  refine ⟨by decide, by decide, rfl⟩

/-- C4 (amended): the pipeline performs no minimum-length check at all:
for any non-empty history, regardless of the length of the prepared
series, the only pre-forecast failure outcome is the model fitting error,
produced exactly when the library fit itself fails; no insufficient-data
outcome can occur. -/
theorem no_min_length_check
    (fit : List (Nat × Option ℚ) → Except String SarimaxResults)
    (df : List Observation) (pol : String)
    (hne : df.isEmpty = false) :
    render_forecast fit df pol ≠ .insufficientData ∧
    (∀ e, render_forecast fit df pol = .fitError e ↔
      fit (prepare df pol) = .error e) := by
  constructor
  · simp only [render_forecast, hne, Bool.false_eq_true, if_false]
    rcases fit (prepare df pol) with e | res
    · simp
    · rcases (prepare df pol).getLast? with _ | pt <;> simp
  · intro e
    simp only [render_forecast, hne, Bool.false_eq_true, if_false]
    rcases hf : fit (prepare df pol) with e' | res
    · simp
    · rcases (prepare df pol).getLast? with _ | pt <;> simp

/-- C4 witness. -/
theorem no_min_length_check_witness :
    render_forecast (fun _ => .error "E") [⟨0, "co", 5⟩] "co" ≠
      .insufficientData :=
  (no_min_length_check (fun _ => .error "E") [⟨0, "co", 5⟩] "co" (by decide)).1

lemma render_forecast_success_inv
    (fit : List (Nat × Option ℚ) → Except String SarimaxResults)
    (df : List Observation) (pol : String) (fc : Forecast) (hz : HazardStatus)
    (h : render_forecast fit df pol = .success fc hz) :
    df.isEmpty = false ∧ ∃ res pt,
      fit (prepare df pol) = .ok res ∧
      (prepare df pol).getLast? = some pt ∧
      fc = buildForecast res pt.1 ∧
      hz = hazardReport HAZARD_THRESHOLDS pol
        ((buildForecast res pt.1).index.zip (buildForecast res pt.1).mean) := by
  unfold render_forecast at h
  split at h
  · exact absurd h (by simp)
  · rename_i hne
    rcases hf : fit (prepare df pol) with e | res <;> rw [hf] at h
    · exact absurd h (by simp)
    · rcases hl : (prepare df pol).getLast? with _ | pt <;> rw [hl] at h
      · exact absurd h (by simp)
      · injection h with h1 h2
        exact ⟨by simpa using hne, res, pt, rfl, rfl, h1.symm, h2.symm⟩

lemma buildForecast_index_get (res : SarimaxResults) (L i : Nat)
    (hi : i < FORECAST_HOURS) :
    (buildForecast res L).index[i]? = some (L + 1 + i) := by
  simp [buildForecast, List.getElem?_map, List.getElem?_range, hi]

lemma buildForecast_lengths (res : SarimaxResults) (L : Nat) :
    (buildForecast res L).index.length = FORECAST_HOURS ∧
    (buildForecast res L).mean.length = FORECAST_HOURS ∧
    (buildForecast res L).lower.length = FORECAST_HOURS ∧
    (buildForecast res L).upper.length = FORECAST_HOURS := by
  simp [buildForecast]

/-- C3: every successfully produced forecast has index, mean, lower and
upper sequences all of length FORECAST_HOURS; its first timestamp is
exactly one hour after the last timestamp of the prepared series, and
every later timestamp is exactly one hour after the previous one. -/
theorem forecast_horizon_shape
    (fit : List (Nat × Option ℚ) → Except String SarimaxResults)
    (df : List Observation) (pol : String) (fc : Forecast) (hz : HazardStatus)
    (h : render_forecast fit df pol = .success fc hz) :
    fc.index.length = FORECAST_HOURS ∧
    fc.mean.length = FORECAST_HOURS ∧
    fc.lower.length = FORECAST_HOURS ∧
    fc.upper.length = FORECAST_HOURS ∧
    (∃ pt, (prepare df pol).getLast? = some pt ∧
      fc.index[0]? = some (pt.1 + 1)) ∧
    (∀ i, i + 1 < fc.index.length →
      fc.index[i + 1]? = (fc.index[i]?).map (· + 1)) := by
  obtain ⟨-, res, pt, -, hlast, hfc, -⟩ := render_forecast_success_inv fit df pol fc hz h
  subst hfc
  obtain ⟨l1, l2, l3, l4⟩ := buildForecast_lengths res pt.1
  refine ⟨l1, l2, l3, l4, ⟨pt, hlast, ?_⟩, fun i hi => ?_⟩
  · rw [buildForecast_index_get res pt.1 0 (by norm_num [FORECAST_HOURS])]
  · rw [l1] at hi
    rw [buildForecast_index_get res pt.1 (i + 1) hi,
        buildForecast_index_get res pt.1 i (Nat.lt_of_succ_lt hi)]
    simp [Nat.add_assoc]

/-- C3 witness. -/
theorem forecast_horizon_shape_witness :
    (buildForecast ⟨fun _ => 0, fun _ => 0⟩ 0).index.length = FORECAST_HOURS ∧
    (buildForecast ⟨fun _ => 0, fun _ => 0⟩ 0).index[0]? = some 1 := by
  have h := forecast_horizon_shape (fun _ => .ok ⟨fun _ => 0, fun _ => 0⟩)
    [⟨0, "co", 1⟩] "co" (buildForecast ⟨fun _ => 0, fun _ => 0⟩ 0) .ok (by rfl)
  obtain ⟨hlen, -, -, -, ⟨pt, hpt, hidx⟩, -⟩ := h
  have hpt' : pt = (0, some (1 : ℚ)) := by
    have : (prepare [⟨0, "co", 1⟩] "co").getLast? = some (0, some 1) := by
      norm_num [prepare, ffill, ffillGo, resampleMean, filterPollutant,
        bucketValues, bucketList, minBucket, maxBucket, bucket, meanQ,
        List.filter_cons, List.range, List.range.loop]
    rw [this] at hpt
    exact (Option.some.inj hpt).symm
  subst hpt'
  exact ⟨hlen, hidx⟩

/-- C8: in every successfully produced forecast, provided the model
library reports nonnegative standard errors (they are square roots of
variances), the confidence bounds bracket the point estimate at every
step: lower at i is at most mean at i, which is at most upper at i. -/
theorem interval_brackets_mean
    (fit : List (Nat × Option ℚ) → Except String SarimaxResults)
    (df : List Observation) (pol : String) (fc : Forecast) (hz : HazardStatus)
    (hse : ∀ (s : List (Nat × Option ℚ)) (res : SarimaxResults),
      fit s = .ok res → ∀ i, 0 ≤ res.seAt i)
    (h : render_forecast fit df pol = .success fc hz) :
    ∀ (i : Nat) (lo me up : ℚ), fc.lower[i]? = some lo →
      fc.mean[i]? = some me → fc.upper[i]? = some up →
      lo ≤ me ∧ me ≤ up := by
  obtain ⟨-, res, pt, hfit, -, hfc, -⟩ := render_forecast_success_inv fit df pol fc hz h
  subst hfc
  intro i lo me up hlo hme hup
  by_cases hi : i < FORECAST_HOURS
  · have hlo' : lo = res.meanAt i - confZ * res.seAt i := by
      simpa [buildForecast, List.getElem?_map, List.getElem?_range, hi]
        using hlo.symm
    have hme' : me = res.meanAt i := by
      simpa [buildForecast, List.getElem?_map, List.getElem?_range, hi]
        using hme.symm
    have hup' : up = res.meanAt i + confZ * res.seAt i := by
      simpa [buildForecast, List.getElem?_map, List.getElem?_range, hi]
        using hup.symm
    have hs : 0 ≤ res.seAt i := hse (prepare df pol) res hfit i
    have hz0 : 0 ≤ confZ * res.seAt i :=
      mul_nonneg (by norm_num [confZ]) hs
    subst hlo' hme' hup'
    constructor <;> linarith
  · exfalso
    have hnone : (buildForecast res pt.1).mean[i]? = none := by
      simp [buildForecast, List.getElem?_map, List.getElem?_range, hi]
      omega
    rw [hnone] at hme
    exact Option.noConfusion hme

/-- C8 witness: a fitted model with constant mean 5 and standard error 1
yields lower bound 304/100 and upper bound 696/100 around the mean at the
first step. -/
theorem interval_brackets_mean_witness :
    ((304 : ℚ) / 100) ≤ 5 ∧ (5 : ℚ) ≤ 696 / 100 := by
  have heq : render_forecast (fun _ => .ok ⟨fun _ => 5, fun _ => 1⟩)
      [⟨0, "o3", 3⟩] "o3" =
      .success (buildForecast ⟨fun _ => 5, fun _ => 1⟩ 0) .ok := by rfl
  have hse : ∀ (s : List (Nat × Option ℚ)) (res : SarimaxResults),
      (fun _ : List (Nat × Option ℚ) =>
        (Except.ok ⟨fun _ => 5, fun _ => 1⟩ : Except String SarimaxResults)) s =
        Except.ok res → ∀ i, 0 ≤ res.seAt i := by
    intro s res h i
    cases h
    norm_num
  exact interval_brackets_mean _ _ _ _ _ hse heq 0 (304 / 100) 5 (696 / 100)
    (by norm_num [buildForecast, confZ, List.getElem?_map, List.getElem?_range,
      FORECAST_HOURS])
    (by norm_num [buildForecast, List.getElem?_map, List.getElem?_range,
      FORECAST_HOURS])
    (by norm_num [buildForecast, confZ, List.getElem?_map, List.getElem?_range,
      FORECAST_HOURS])

/-- C10: with the API key unset (the empty string), the history provider
returns the empty frame without failing, and the pipeline run on that
result reports the insufficient-data condition for every possible model
library and pollutant — series preparation and fitting never run and the
host never crashes. -/
theorem missing_api_key_insufficient_data (remote : List Observation)
    (fit : List (Nat × Option ℚ) → Except String SarimaxResults)
    (pol : String) :
    fetch_pollution_history "" remote = [] ∧
    render_forecast fit (fetch_pollution_history "" remote) pol =
      .insufficientData := by
  refine ⟨rfl, rfl⟩

/-- C9: for every non-empty filtered observation set, the prepared series
has exactly one row per hourly bucket from the first observed bucket to
the last (hence strictly increasing, uniformly hourly spaced timestamps
covering the min-to-max range of the filtered observations), no missing
value survives the forward fill, and the series starts at the first hourly
bucket, which contains a real observation — so no leading gap exists. -/
theorem prepare_regular_series_invariants (df : List Observation) (pol : String)
    (h : filterPollutant df pol ≠ []) :
    (prepare df pol).length =
      maxBucket (bucketList (filterPollutant df pol)) -
        minBucket (bucketList (filterPollutant df pol)) + 1 ∧
    (∀ i, i < (prepare df pol).length →
      ((prepare df pol)[i]?).map Prod.fst =
        some (minBucket (bucketList (filterPollutant df pol)) + i)) ∧
    (∀ e ∈ prepare df pol, e.2.isSome = true) ∧
    (∀ b ∈ bucketList (filterPollutant df pol),
      minBucket (bucketList (filterPollutant df pol)) ≤ b ∧
      b ≤ maxBucket (bucketList (filterPollutant df pol))) ∧
    ((prepare df pol).head?).map Prod.fst =
      some (minBucket (bucketList (filterPollutant df pol))) ∧
    (bucketValues (filterPollutant df pol)
      (minBucket (bucketList (filterPollutant df pol)))).isEmpty = false := by
  have hne : (filterPollutant df pol).isEmpty = false := isEmpty_false_of_ne_nil h
  have hblne : bucketList (filterPollutant df pol) ≠ [] := by
    rcases hfp : filterPollutant df pol with _ | ⟨o, rest⟩
    · exact absurd hfp h
    · simp [bucketList]
  have hb0mem := minBucket_mem _ hblne
  have hbv0 : (bucketValues (filterPollutant df pol)
      (minBucket (bucketList (filterPollutant df pol)))).isEmpty = false :=
    bucketValues_ne_nil hb0mem
  have hlen : (prepare df pol).length =
      maxBucket (bucketList (filterPollutant df pol)) -
        minBucket (bucketList (filterPollutant df pol)) + 1 := by
    rw [prepare, ffill, ffillGo_length, resampleMean_length hne]
  refine ⟨hlen, fun i hi => ?_, ?_, fun b hb => ⟨minBucket_le _ b hb, le_maxBucket _ b hb⟩, ?_, hbv0⟩
  · rw [prepare, ffill, ffillGo_get_fst,
      resampleMean_get hne (by rw [hlen] at hi; exact hi)]
    rfl
  · rcases hre : resampleMean (filterPollutant df pol) with _ | ⟨hd, tail⟩
    · have := resampleMean_length hne
      rw [hre] at this
      simp at this
    · have h0 : (resampleMean (filterPollutant df pol))[0]? = some hd := by
        rw [hre]; simp
      rw [resampleMean_get hne (by omega)] at h0
      have hhd : hd = (minBucket (bucketList (filterPollutant df pol)),
          some (meanQ (bucketValues (filterPollutant df pol)
            (minBucket (bucketList (filterPollutant df pol)))))) := by
        have h1 := (Option.some.inj h0).symm
        rw [h1]
        simp [hbv0]
      intro e he
      rw [prepare, ffill, hre, hhd] at he
      rcases List.mem_cons.mp he with rfl | h2
      · rfl
      · exact ffillGo_some_all _ tail e h2
  · rcases hre : resampleMean (filterPollutant df pol) with _ | ⟨hd, tail⟩
    · have := resampleMean_length hne
      rw [hre] at this
      simp at this
    · have h0 : (resampleMean (filterPollutant df pol))[0]? = some hd := by
        rw [hre]; simp
      rw [resampleMean_get hne (by omega)] at h0
      have hhd : hd = (minBucket (bucketList (filterPollutant df pol)),
          some (meanQ (bucketValues (filterPollutant df pol)
            (minBucket (bucketList (filterPollutant df pol)))))) := by
        have h1 := (Option.some.inj h0).symm
        rw [h1]
        simp [hbv0]
      rw [prepare, ffill, hre, hhd]
      rfl

/-- C9 witness: observations in buckets 1 and 3 give a three-row series
starting at bucket 1. -/
theorem prepare_regular_series_invariants_witness :
    (prepare [⟨3600, "pm10", 7⟩, ⟨10800, "pm10", 9⟩] "pm10").length = 3 ∧
    ((prepare [⟨3600, "pm10", 7⟩, ⟨10800, "pm10", 9⟩] "pm10").head?).map
      Prod.fst = some 1 := by
  have h := prepare_regular_series_invariants
    [⟨3600, "pm10", 7⟩, ⟨10800, "pm10", 9⟩] "pm10" (by decide)
  refine ⟨?_, ?_⟩
  · rw [h.1]; decide
  · rw [h.2.2.2.2.1]; decide

/-- C5: for every non-empty filtered observation set, every hourly bucket
containing observations carries the arithmetic mean of those observations,
and every empty hourly bucket carries the value of the bucket before it
(forward fill) — not an interpolation and not a missing marker. -/
theorem prepare_mean_and_ffill (df : List Observation) (pol : String)
    (h : filterPollutant df pol ≠ []) :
    (∀ i, i < (prepare df pol).length →
      (bucketValues (filterPollutant df pol)
        (minBucket (bucketList (filterPollutant df pol)) + i)).isEmpty = false →
      (prepare df pol)[i]? =
        some (minBucket (bucketList (filterPollutant df pol)) + i,
          some (meanQ (bucketValues (filterPollutant df pol)
            (minBucket (bucketList (filterPollutant df pol)) + i))))) ∧
    (∀ i, i + 1 < (prepare df pol).length →
      (bucketValues (filterPollutant df pol)
        (minBucket (bucketList (filterPollutant df pol)) + (i + 1))).isEmpty
        = true →
      ((prepare df pol)[i + 1]?).map Prod.snd =
        ((prepare df pol)[i]?).map Prod.snd) := by
  have hne : (filterPollutant df pol).isEmpty = false := isEmpty_false_of_ne_nil h
  have hlen : (prepare df pol).length =
      maxBucket (bucketList (filterPollutant df pol)) -
        minBucket (bucketList (filterPollutant df pol)) + 1 := by
    rw [prepare, ffill, ffillGo_length, resampleMean_length hne]
  constructor
  · intro i hi hb
    have hres : (resampleMean (filterPollutant df pol))[i]? =
        some (minBucket (bucketList (filterPollutant df pol)) + i,
          some (meanQ (bucketValues (filterPollutant df pol)
            (minBucket (bucketList (filterPollutant df pol)) + i)))) := by
      rw [resampleMean_get hne (by rw [hlen] at hi; exact hi), hb]
      simp
    rw [prepare, ffill]
    exact ffillGo_get_some none _ i _ _ hres
  · intro i hi hb
    have hres : (resampleMean (filterPollutant df pol))[i + 1]? =
        some (minBucket (bucketList (filterPollutant df pol)) + (i + 1),
          none) := by
      rw [resampleMean_get hne (by rw [hlen] at hi; exact hi), hb]
      simp
    rw [prepare, ffill]
    exact ffillGo_get_none_step none _ i _ hres

/-- C5 witness: the spec example — values 10 at hour 2 and 20 at hour 4,
hour 3 missing — forward fills hour 3 with the hour 2 value 10. -/
theorem prepare_mean_and_ffill_witness :
    prepare [⟨7200, "co", 10⟩, ⟨14400, "co", 20⟩] "co" =
      [(2, some 10), (3, some 10), (4, some 20)] ∧
    ((prepare [⟨7200, "co", 10⟩, ⟨14400, "co", 20⟩] "co")[1]?).map Prod.snd =
      ((prepare [⟨7200, "co", 10⟩, ⟨14400, "co", 20⟩] "co")[0]?).map
        Prod.snd := by
  refine ⟨?_, ?_⟩
  · norm_num [prepare, ffill, ffillGo, resampleMean, filterPollutant,
      bucketValues, bucketList, minBucket, maxBucket, bucket, meanQ,
      List.filter_cons, List.range, List.range.loop]
  · exact (prepare_mean_and_ffill [⟨7200, "co", 10⟩, ⟨14400, "co", 20⟩] "co"
      (by decide)).2 0 (by decide) (by decide)

end AirQuality
